import Mathlib

/-!
Verification of the cs50w-music backend (`songs` app).

The embedding follows `src/backend/songs/views.py`. Code of the repository that
is not under `src/` (helpers.py, permissions.py, serializers.py, models.py) is
modelled from the specification; each such definition carries a doc comment
starting with `Modelled from the spec:`.

Django many-to-many relations carry a uniqueness constraint, so relationship
sets are lists kept duplicate-free by the `m2mAdd` / `m2mRemove` operations.
-/

/-- A stored user row: primary key, username, country, active flag
(`models.User`; fields beyond those the claims mention are elided). -/
structure User where
  id : Nat
  username : String
  country : String
  is_active : Bool
deriving DecidableEq

/-- A release (Song or Album): primary key, title, release date (days),
the `artists` and `requested_artists` many-to-many sets. -/
structure Release where
  id : Nat
  title : String
  release_date : Nat
  artists : List Nat
  requested_artists : List Nat
deriving DecidableEq

/-- A playlist: primary key, owner, title, creation time, song membership. -/
structure Playlist where
  id : Nat
  owner : Nat
  title : String
  created_at : Nat
  songs : List Nat
deriving DecidableEq

/-- The durable store. -/
structure Db where
  users : List User
  songs : List Release
  albums : List Release
  playlists : List Playlist
deriving DecidableEq

/-- Django `relation.add`: inserts if absent (M2M rows are unique). -/
def m2mAdd (xs : List Nat) (x : Nat) : List Nat :=
  if x ∈ xs then xs else xs ++ [x]

/-- Django `relation.remove`: deletes the row if present. -/
def m2mRemove (xs : List Nat) (x : Nat) : List Nat :=
  xs.filter (fun y => y != x)

/-- HTTP statuses the handlers produce. -/
inductive Status where
  | ok
  | created
  | noContent
  | badRequest
  | unauthorized
  | forbidden
  | notFound
  | methodNotAllowed
deriving DecidableEq

/-- Numeric status codes. -/
def Status.code : Status → Nat
  | .ok => 200
  | .created => 201
  | .noContent => 204
  | .badRequest => 400
  | .unauthorized => 401
  | .forbidden => 403
  | .notFound => 404
  | .methodNotAllowed => 405

/-- HTTP verbs. -/
inductive Method where
  | get
  | post
  | put
  | patch
  | delete
deriving DecidableEq

/-- A response: status, a `detail` message for whole-request errors,
field-keyed validation messages, and an optional serialized body. -/
structure Resp where
  status : Status
  detail : Option String := none
  fieldErrors : List (String × String) := []
  release : Option Release := none
  playlist : Option Playlist := none
deriving DecidableEq

/-- The DRF NotFound response: 404 with detail "Not found.". -/
def notFoundResp : Resp :=
  { status := .notFound, detail := some "Not found." }

/-- The DRF PermissionDenied response: 403 with its fixed detail message. -/
def forbiddenResp : Resp :=
  { status := .forbidden,
    detail := some "You do not have permission to perform this action." }

/-- Modelled from the spec: `add_artist_to_requested` lives in
`songs/helpers.py`, which is not in the source tree. Per the spec it adds the
candidate to `release.requested_artists` (no duplicate check beyond set
semantics) and returns OK with the updated representation; the
actor-must-be-an-artist requirement is enforced by the permission layer. -/
def add_artist_to_requested (release : Release) (candidate : Nat) : Resp × Release :=
  let r := { release with requested_artists := m2mAdd release.requested_artists candidate }
  ({ status := .ok, release := some r }, r)

/-- Modelled from the spec: `remove_artist_from_requested` lives in
`songs/helpers.py`, which is not in the source tree. Per the spec it removes
the candidate from `release.requested_artists` and returns OK with the updated
representation. -/
def remove_artist_from_requested (release : Release) (candidate : Nat) : Resp × Release :=
  let r := { release with requested_artists := m2mRemove release.requested_artists candidate }
  ({ status := .ok, release := some r }, r)

/-- Modelled from the spec: `confirm_user_as_artist` lives in
`songs/helpers.py`, which is not in the source tree. Per the spec it removes
the actor from `requested_artists` and adds the actor to `artists` atomically,
returning OK with the updated representation; the actor-is-requested
requirement is enforced by the policy, not by the helper. -/
def confirm_user_as_artist (release : Release) (actor : Nat) : Resp × Release :=
  let r := { release with
      requested_artists := m2mRemove release.requested_artists actor,
      artists := m2mAdd release.artists actor }
  ({ status := .ok, release := some r }, r)

/-- Modelled from the spec: `remove_user_as_artist` lives in
`songs/helpers.py`, which is not in the source tree. Per the spec it removes
the actor from `release.artists` — no minimum-artist-count floor is enforced —
and returns OK with the updated representation. -/
def remove_user_as_artist (release : Release) (actor : Nat) : Resp × Release :=
  let r := { release with artists := m2mRemove release.artists actor }
  ({ status := .ok, release := some r }, r)

/-- Modelled from the spec: `IsArtistOrReadOnly` lives in
`songs/permissions.py`, which is not in the source tree. Per the policy table,
write operations on a release — update, delete, and `manage_requested_artists`
— are allowed only when the acting identity is a current artist. -/
def isArtistOrReadOnly (release : Release) (actor : Nat) (write : Bool) : Bool :=
  !write || release.artists.contains actor

/-- Modelled from the spec: `IsRequestedArtist` lives in
`songs/permissions.py`, which is not in the source tree. Per the policy table,
`confirm_current_user_as_artist` is allowed only to the identity that is
itself in the requested-artists set. -/
def isRequestedArtist (release : Release) (actor : Nat) : Bool :=
  release.requested_artists.contains actor

/-- `ReleaseMixin.manage_requested_artists` (views.py lines 74-87): the object
permission (`IsArtistOrReadOnly`, checked inside `get_object`) runs first;
then a missing `artist_id` yields 400 with a field-keyed message; then
`get_object_or_404(User, pk=artist_id)` yields 404 for a nonexistent user;
finally POST adds and DELETE removes via the helper. -/
def manage_requested_artists (users : List User) (release : Release) (actor : Nat)
    (m : Method) (artist_id : Option Nat) : Resp × Release :=
  if isArtistOrReadOnly release actor true then
    match artist_id with
    | none =>
        ({ status := .badRequest,
           fieldErrors := [("artist_id", "This field is required.")] }, release)
    | some aid =>
        match users.find? (fun u => u.id = aid) with
        | none => (notFoundResp, release)
        | some artist =>
            match m with
            | .post => add_artist_to_requested release artist.id
            | _ => remove_artist_from_requested release artist.id
  else (forbiddenResp, release)

/-- `ReleaseMixin.confirm_current_user_as_artist` (views.py lines 89-92):
guarded by `IsRequestedArtist`, then delegates to `confirm_user_as_artist`. -/
def confirm_current_user_as_artist (release : Release) (actor : Nat) : Resp × Release :=
  if isRequestedArtist release actor then confirm_user_as_artist release actor
  else (forbiddenResp, release)

/-- `ReleaseMixin.remove_current_user_as_artist` (views.py lines 94-97):
a DELETE guarded by the default `IsArtistOrReadOnly` permission, then
delegates to `remove_user_as_artist`. -/
def remove_current_user_as_artist (release : Release) (actor : Nat) : Resp × Release :=
  if isArtistOrReadOnly release actor true then remove_user_as_artist release actor
  else (forbiddenResp, release)

/-- Modelled from the spec: the Song/Album serializer save
(`songs/serializers.py` is not in the source tree). It stores the validated
payload fields, including any submitted `artists` list, with an empty
requested-artists set. -/
def releaseSerializerSave (newId : Nat) (title : String) (release_date : Nat)
    (payloadArtists : List Nat) : Release :=
  { id := newId, title := title, release_date := release_date,
    artists := payloadArtists.foldl m2mAdd [], requested_artists := [] }

/-- `ReleaseMixin.perform_create` (views.py lines 69-72): saves the serializer
and then adds the current user to the saved instance's artists. -/
def perform_create_release (newId : Nat) (title : String) (release_date : Nat)
    (payloadArtists : List Nat) (actor : Nat) : Release :=
  let entity_instance := releaseSerializerSave newId title release_date payloadArtists
  { entity_instance with artists := m2mAdd entity_instance.artists actor }

/-- Release creation endpoint: DRF `create` returns 201 Created and runs
`perform_create_release` for the store mutation. -/
def release_create (newId : Nat) (title : String) (release_date : Nat)
    (payloadArtists : List Nat) (actor : Nat) : Resp × Release :=
  let e := perform_create_release newId title release_date payloadArtists actor
  ({ status := .created, release := some e }, e)

/-- Modelled from the spec: `IsUserOrReadOnly` lives in
`songs/permissions.py`, which is not in the source tree. Per the policy table,
update/delete on a user is allowed only when the acting identity equals the
target user. -/
def isUserOrReadOnly (target : User) (actor : Nat) (write : Bool) : Bool :=
  !write || target.id = actor

/-- `UserViewSet.destroy` (views.py lines 26-31): fetch the object (404 when
the pk does not resolve, 403 when the object permission rejects the actor),
clear `is_active`, save, and return 204 No Content. -/
def user_destroy (db : Db) (actor : Nat) (pk : Nat) : Resp × Db :=
  match db.users.find? (fun u => u.id = pk) with
  | none => (notFoundResp, db)
  | some user =>
      if isUserOrReadOnly user actor true then
        let saved := { user with is_active := false }
        ({ status := .noContent },
         { db with users := db.users.map (fun v => if v.id = pk then saved else v) })
      else (forbiddenResp, db)

/-- A playlist write payload; `owner` may be supplied by the client. -/
structure PlaylistPayload where
  title : Option String := none
  owner : Option Nat := none
deriving DecidableEq

/-- Modelled from the spec: the update path of `PlaylistSerializer`
(`songs/serializers.py` is not in the source tree). A supplied `owner` value
is silently discarded — the stored owner is retained — while the other
supplied fields are applied. -/
def playlist_serializer_update (p : Playlist) (payload : PlaylistPayload) : Playlist :=
  { p with title := payload.title.getD p.title }

/-- `PlaylistViewSet.get_queryset` (views.py lines 128-129):
`Playlist.objects.filter(owner=self.request.user).order_by("-created_at")`. -/
def playlist_get_queryset (db : Db) (actor : Nat) : List Playlist :=
  List.insertionSort (fun a b => b.created_at ≤ a.created_at)
    (db.playlists.filter (fun p => p.owner = actor))

/-- A fresh playlist primary key. -/
def freshPlaylistId (db : Db) : Nat :=
  db.playlists.foldr (fun p m => max (p.id + 1) m) 0

/-- `PlaylistViewSet.perform_create` (views.py lines 131-133) together with
DRF `create`: `title` is required (400 otherwise), and the saved row's owner
is `self.request.user` regardless of any owner in the payload. -/
def playlist_create (db : Db) (actor : Nat) (now : Nat)
    (payload : PlaylistPayload) : Resp × Db :=
  match payload.title with
  | none =>
      ({ status := .badRequest,
         fieldErrors := [("title", "This field is required.")] }, db)
  | some t =>
      let p : Playlist :=
        { id := freshPlaylistId db, owner := actor, title := t,
          created_at := now, songs := [] }
      ({ status := .created, playlist := some p },
       { db with playlists := db.playlists ++ [p] })

/-- The playlist detail endpoint (`PlaylistViewSet` retrieve/update/destroy):
DRF resolves the object inside `get_queryset`, so a playlist outside the
caller's filtered set yields 404 NotFound before any authorization runs. -/
def playlist_detail (db : Db) (actor : Nat) (pk : Nat) (m : Method)
    (payload : PlaylistPayload) : Resp × Db :=
  match (playlist_get_queryset db actor).find? (fun q => q.id = pk) with
  | none => (notFoundResp, db)
  | some p =>
      match m with
      | .get => ({ status := .ok, playlist := some p }, db)
      | .post => ({ status := .methodNotAllowed,
                    detail := some "Method \x22POST\x22 not allowed." }, db)
      | .put =>
          match payload.title with
          | none =>
              ({ status := .badRequest,
                 fieldErrors := [("title", "This field is required.")] }, db)
          | some _ =>
              let saved := playlist_serializer_update p payload
              ({ status := .ok, playlist := some saved },
               { db with playlists :=
                   db.playlists.map (fun q => if q.id = pk then saved else q) })
      | .patch =>
          let saved := playlist_serializer_update p payload
          ({ status := .ok, playlist := some saved },
           { db with playlists :=
               db.playlists.map (fun q => if q.id = pk then saved else q) })
      | .delete =>
          ({ status := .noContent },
           { db with playlists := db.playlists.filter (fun q => q.id ≠ pk) })

/-- Modelled from the spec: `add_song_to_playlist` lives in
`songs/helpers.py`, which is not in the source tree. Per the spec it adds the
song to the playlist's song set and returns OK with the updated
representation. -/
def add_song_to_playlist (playlist : Playlist) (song : Nat) : Resp × Playlist :=
  let p := { playlist with songs := m2mAdd playlist.songs song }
  ({ status := .ok, playlist := some p }, p)

/-- Modelled from the spec: `remove_song_from_playlist` lives in
`songs/helpers.py`, which is not in the source tree. Per the spec it removes
the song from the playlist's song set and returns OK with the updated
representation. -/
def remove_song_from_playlist (playlist : Playlist) (song : Nat) : Resp × Playlist :=
  let p := { playlist with songs := m2mRemove playlist.songs song }
  ({ status := .ok, playlist := some p }, p)

/-- `PlaylistViewSet.manage_songs` (views.py lines 135-148): a missing
`song_id` yields 400 with a field-keyed message; `get_object_or_404(Song,
pk=song_id)` yields 404 for a nonexistent song; then POST adds and DELETE
removes via the helper. -/
def manage_songs (songs : List Release) (playlist : Playlist) (m : Method)
    (song_id : Option Nat) : Resp × Playlist :=
  match song_id with
  | none =>
      ({ status := .badRequest,
         fieldErrors := [("song_id", "This field is required.")] }, playlist)
  | some sid =>
      match songs.find? (fun s => s.id = sid) with
      | none => (notFoundResp, playlist)
      | some song =>
          match m with
          | .post => add_song_to_playlist playlist song.id
          | _ => remove_song_from_playlist playlist song.id

/-- The free-text search predicate of `UserViewSet`
(`search_fields = ["username", "country"]`): a case-insensitive substring
match against either configured field. -/
def user_search_match (q : String) (u : User) : Bool :=
  u.username.toLower.containsSubstr q.toLower.toSubstring ||
  u.country.toLower.containsSubstr q.toLower.toSubstring

/-- The free-text search predicate of `SongViewSet` / `AlbumViewSet`
(`search_fields = ["title", "artists__username"]`): a case-insensitive
substring match against the title or any artist's username. -/
def release_search_match (users : List User) (q : String) (r : Release) : Bool :=
  r.title.toLower.containsSubstr q.toLower.toSubstring ||
  r.artists.any (fun aid =>
    match users.find? (fun u => u.id = aid) with
    | some u => u.username.toLower.containsSubstr q.toLower.toSubstring
    | none => false)

/-- The free-text search predicate of `PlaylistViewSet`
(`search_fields = ["title"]`). -/
def playlist_search_match (q : String) (p : Playlist) : Bool :=
  p.title.toLower.containsSubstr q.toLower.toSubstring

/-- `UserViewSet` list: `User.objects.all().order_by("username")` with the
search filter applied. -/
def users_list (db : Db) (search : Option String) : List User :=
  List.insertionSort (fun a b => a.username ≤ b.username)
    (db.users.filter (fun u =>
      match search with
      | none => true
      | some q => user_search_match q u))

/-- `SongViewSet` list: `Song.objects.all().order_by("-release_date")` with
the search filter applied. -/
def songs_list (db : Db) (search : Option String) : List Release :=
  List.insertionSort (fun a b => b.release_date ≤ a.release_date)
    (db.songs.filter (fun s =>
      match search with
      | none => true
      | some q => release_search_match db.users q s))

/-- `AlbumViewSet` list: `Album.objects.all().order_by("-release_date")` with
the search filter applied. -/
def albums_list (db : Db) (search : Option String) : List Release :=
  List.insertionSort (fun a b => b.release_date ≤ a.release_date)
    (db.albums.filter (fun s =>
      match search with
      | none => true
      | some q => release_search_match db.users q s))

/-- `PlaylistViewSet` list: the owner-filtered queryset ordered by
`-created_at`, with the search filter applied. -/
def playlists_list (db : Db) (actor : Nat) (search : Option String) : List Playlist :=
  List.insertionSort (fun a b => b.created_at ≤ a.created_at)
    (db.playlists.filter (fun p =>
      p.owner = actor &&
      match search with
      | none => true
      | some q => playlist_search_match q p))

/-! ### Shared lemmas about the relationship-set operations -/

theorem m2mRemove_not_mem (xs : List Nat) (x : Nat) : x ∉ m2mRemove xs x := by
  simp [m2mRemove]

theorem m2mRemove_length (xs : List Nat) (x : Nat) (hnd : xs.Nodup) (hx : x ∈ xs) :
    (m2mRemove xs x).length + 1 = xs.length := by
  have he : xs.erase x = m2mRemove xs x := hnd.erase_eq_filter x
  rw [← he]
  exact List.length_erase_add_one hx

theorem m2mAdd_mem (xs : List Nat) (x : Nat) : x ∈ m2mAdd xs x := by
  by_cases h : x ∈ xs <;> simp [m2mAdd, h]

theorem m2mAdd_eq_of_mem {xs : List Nat} {x : Nat} (h : x ∈ xs) : m2mAdd xs x = xs := by
  simp [m2mAdd, h]

theorem m2mAdd_length_of_not_mem {xs : List Nat} {x : Nat} (h : x ∉ xs) :
    (m2mAdd xs x).length = xs.length + 1 := by
  simp [m2mAdd, h]

theorem user_find?_map_update (pk : Nat) (saved : User) (hs : saved.id = pk) :
    ∀ (xs : List User) (u : User), xs.find? (fun v => v.id = pk) = some u →
      (xs.map (fun v => if v.id = pk then saved else v)).find? (fun v => v.id = pk)
        = some saved := by
  intro xs
  induction xs with
  | nil => intro u h; simp at h
  | cons x xs ih =>
      intro u h
      by_cases hx : x.id = pk
      · rw [List.map_cons, if_pos hx]
        exact List.find?_cons_of_pos _ (by simp [hs])
      · rw [List.find?_cons_of_neg _ (by simp [hx])] at h
        rw [List.map_cons, if_neg hx, List.find?_cons_of_neg _ (by simp [hx])]
        exact ih _ h

theorem user_map_update_idem (pk : Nat) (saved : User) (hs : saved.id = pk)
    (xs : List User) :
    (xs.map (fun v => if v.id = pk then saved else v)).map
        (fun v => if v.id = pk then saved else v)
      = xs.map (fun v => if v.id = pk then saved else v) := by
  rw [List.map_map]
  congr 1
  funext v
  by_cases h : v.id = pk <;> simp [h, hs]

/-! ### Claim theorems -/

/-- C1 counterexample: on the release with artists = {7} and requested
artists = {7} (reachable, since `add_artist_to_requested` performs no
already-an-artist check), user 7 confirming succeeds but the artists count
does not increase by 1. -/
theorem confirm_artist_count_counterexample :
    7 ∈ (Release.mk 1 "" 0 [7] [7]).requested_artists ∧
    (confirm_current_user_as_artist (Release.mk 1 "" 0 [7] [7]) 7).1.status = Status.ok ∧
    ¬ ((confirm_current_user_as_artist (Release.mk 1 "" 0 [7] [7]) 7).2.artists.length
        = (Release.mk 1 "" 0 [7] [7]).artists.length + 1) := by
  decide

/-- C1 (amended): for every release R and user C in R's requested-artists
set, C's POST to confirm_current_user_as_artist returns 200 and atomically
moves C from the requested set into the artists set — the requested count
decreases by 1, C ends up an artist, and the artists count increases by 1
whenever C was not already an artist (it is unchanged when C already was one);
any user outside the requested set is rejected with 403 and no state change. -/
theorem confirm_current_user_moves_requested_to_artists (r : Release) (c : Nat)
    (hnd : r.requested_artists.Nodup) (hreq : c ∈ r.requested_artists) :
    (confirm_current_user_as_artist r c).1.status = Status.ok ∧
    (confirm_current_user_as_artist r c).2.requested_artists.length + 1
      = r.requested_artists.length ∧
    c ∉ (confirm_current_user_as_artist r c).2.requested_artists ∧
    c ∈ (confirm_current_user_as_artist r c).2.artists ∧
    (c ∉ r.artists →
      (confirm_current_user_as_artist r c).2.artists.length = r.artists.length + 1) ∧
    (c ∈ r.artists → (confirm_current_user_as_artist r c).2.artists = r.artists) ∧
    (∀ d, d ∉ r.requested_artists →
      confirm_current_user_as_artist r d = (forbiddenResp, r)) := by
  have hcontains : isRequestedArtist r c = true := by
    simp [isRequestedArtist, hreq]
  refine ⟨?_, ?_, ?_, ?_, ?_, ?_, ?_⟩
  · simp [confirm_current_user_as_artist, hcontains, confirm_user_as_artist]
  · simp only [confirm_current_user_as_artist, hcontains, if_pos, confirm_user_as_artist]
    exact m2mRemove_length _ _ hnd hreq
  · simp only [confirm_current_user_as_artist, hcontains, if_pos, confirm_user_as_artist]
    exact m2mRemove_not_mem _ _
  · simp only [confirm_current_user_as_artist, hcontains, if_pos, confirm_user_as_artist]
    exact m2mAdd_mem _ _
  · intro hna
    simp only [confirm_current_user_as_artist, hcontains, if_pos, confirm_user_as_artist]
    exact m2mAdd_length_of_not_mem hna
  · intro hina
    simp only [confirm_current_user_as_artist, hcontains, if_pos, confirm_user_as_artist]
    exact m2mAdd_eq_of_mem hina
  · intro d hd
    simp [confirm_current_user_as_artist, isRequestedArtist, hd]

/-- C1 witness: the amended theorem applied to the release with artists = {5}
and requested artists = {9}, confirmed by user 9. -/
theorem confirm_current_user_moves_requested_to_artists_witness :
    (Release.mk 1 "" 0 [5] [9]).requested_artists.Nodup ∧
    9 ∈ (Release.mk 1 "" 0 [5] [9]).requested_artists ∧
    ((confirm_current_user_as_artist (Release.mk 1 "" 0 [5] [9]) 9).1.status = Status.ok ∧
     (confirm_current_user_as_artist (Release.mk 1 "" 0 [5] [9]) 9).2.requested_artists.length + 1
       = (Release.mk 1 "" 0 [5] [9]).requested_artists.length ∧
     9 ∉ (confirm_current_user_as_artist (Release.mk 1 "" 0 [5] [9]) 9).2.requested_artists ∧
     9 ∈ (confirm_current_user_as_artist (Release.mk 1 "" 0 [5] [9]) 9).2.artists ∧
     (9 ∉ (Release.mk 1 "" 0 [5] [9]).artists →
       (confirm_current_user_as_artist (Release.mk 1 "" 0 [5] [9]) 9).2.artists.length
         = (Release.mk 1 "" 0 [5] [9]).artists.length + 1) ∧
     (9 ∈ (Release.mk 1 "" 0 [5] [9]).artists →
       (confirm_current_user_as_artist (Release.mk 1 "" 0 [5] [9]) 9).2.artists
         = (Release.mk 1 "" 0 [5] [9]).artists) ∧
     (∀ d, d ∉ (Release.mk 1 "" 0 [5] [9]).requested_artists →
       confirm_current_user_as_artist (Release.mk 1 "" 0 [5] [9]) d
         = (forbiddenResp, Release.mk 1 "" 0 [5] [9]))) :=
  ⟨by decide, by decide,
   confirm_current_user_moves_requested_to_artists (Release.mk 1 "" 0 [5] [9]) 9
     (by decide) (by decide)⟩

/-- C6: removing oneself as an artist from a release whose artists set is
exactly a singleton returns 200 and leaves the release with an empty artists
set — no minimum-artist-count floor is enforced, the record itself and its
requested set are untouched. -/
theorem remove_sole_artist_leaves_zero (r : Release) (a : Nat) (h : r.artists = [a]) :
    (remove_current_user_as_artist r a).1.status = Status.ok ∧
    (remove_current_user_as_artist r a).1.status.code = 200 ∧
    (remove_current_user_as_artist r a).2.artists = [] ∧
    (remove_current_user_as_artist r a).2.id = r.id ∧
    (remove_current_user_as_artist r a).2.requested_artists = r.requested_artists := by
  have hperm : isArtistOrReadOnly r a true = true := by
    simp [isArtistOrReadOnly, h]
  refine ⟨?_, ?_, ?_, ?_, ?_⟩ <;>
    simp [remove_current_user_as_artist, hperm, remove_user_as_artist, m2mRemove, h,
      Status.code]

/-- C6 witness: the sole artist 4 removing themselves from a concrete
release. -/
theorem remove_sole_artist_leaves_zero_witness :
    (Release.mk 2 "" 0 [4] [8]).artists = [4] ∧
    ((remove_current_user_as_artist (Release.mk 2 "" 0 [4] [8]) 4).1.status = Status.ok ∧
     (remove_current_user_as_artist (Release.mk 2 "" 0 [4] [8]) 4).1.status.code = 200 ∧
     (remove_current_user_as_artist (Release.mk 2 "" 0 [4] [8]) 4).2.artists = [] ∧
     (remove_current_user_as_artist (Release.mk 2 "" 0 [4] [8]) 4).2.id
       = (Release.mk 2 "" 0 [4] [8]).id ∧
     (remove_current_user_as_artist (Release.mk 2 "" 0 [4] [8]) 4).2.requested_artists
       = (Release.mk 2 "" 0 [4] [8]).requested_artists) :=
  ⟨by decide, remove_sole_artist_leaves_zero (Release.mk 2 "" 0 [4] [8]) 4 (by decide)⟩

/-- C7: a successful Song/Album create by user U stores a release whose
artists set contains U, whatever artists list the payload submitted. -/
theorem creator_added_as_artist (newId : Nat) (title : String) (release_date : Nat)
    (payloadArtists : List Nat) (actor : Nat) :
    (release_create newId title release_date payloadArtists actor).1.status
      = Status.created ∧
    actor ∈ (release_create newId title release_date payloadArtists actor).2.artists := by
  refine ⟨rfl, ?_⟩
  simp only [release_create, perform_create_release]
  exact m2mAdd_mem _ _

/-- C4 counterexample: user 7 is in the requested set and not in the artists
set of the concrete release, yet their own DELETE to
manage_requested_artists with artist_id = 7 is rejected with 403 Forbidden
and the requested set is unchanged — the action's permission admits only
current artists. -/
theorem requested_self_removal_counterexample :
    7 ∈ (Release.mk 1 "" 0 [3] [7]).requested_artists ∧
    7 ∉ (Release.mk 1 "" 0 [3] [7]).artists ∧
    (manage_requested_artists [User.mk 7 "u" "US" true] (Release.mk 1 "" 0 [3] [7]) 7
        Method.delete (some 7)).1.status ≠ Status.ok ∧
    manage_requested_artists [User.mk 7 "u" "US" true] (Release.mk 1 "" 0 [3] [7]) 7
        Method.delete (some 7)
      = (forbiddenResp, Release.mk 1 "" 0 [3] [7]) := by
  decide

/-- C4 (amended): removal of a candidate C from a release's requested set via
DELETE manage_requested_artists succeeds with 200 only when the actor is a
current artist of the release; an actor outside the artists set — including C
removing themselves — is rejected with 403 Forbidden and the release is
unchanged. -/
theorem manage_requested_artists_delete_policy (users : List User) (r : Release)
    (a c : Nat) (u : User) (ha : a ∈ r.artists)
    (hu : users.find? (fun w => w.id = c) = some u) :
    ((manage_requested_artists users r a Method.delete (some c)).1.status = Status.ok ∧
     (manage_requested_artists users r a Method.delete (some c)).2.requested_artists
       = m2mRemove r.requested_artists c ∧
     c ∉ (manage_requested_artists users r a Method.delete (some c)).2.requested_artists ∧
     (manage_requested_artists users r a Method.delete (some c)).2.artists = r.artists) ∧
    (∀ b, b ∉ r.artists →
      manage_requested_artists users r b Method.delete (some c) = (forbiddenResp, r)) := by
  have hperm : isArtistOrReadOnly r a true = true := by
    simp [isArtistOrReadOnly, ha]
  have huc : u.id = c := by
    have := List.find?_some hu
    simpa using this
  constructor
  · refine ⟨?_, ?_, ?_, ?_⟩ <;>
      simp [manage_requested_artists, hperm, hu, remove_artist_from_requested, huc,
        m2mRemove_not_mem]
  · intro b hb
    simp [manage_requested_artists, isArtistOrReadOnly, hb]

/-- C4 witness: artist 3 removes requested candidate 7 by id; candidate 7,
not an artist, cannot. -/
theorem manage_requested_artists_delete_policy_witness :
    3 ∈ (Release.mk 1 "" 0 [3] [7]).artists ∧
    [User.mk 7 "u" "US" true].find? (fun w => w.id = 7) = some (User.mk 7 "u" "US" true) ∧
    (((manage_requested_artists [User.mk 7 "u" "US" true] (Release.mk 1 "" 0 [3] [7]) 3
          Method.delete (some 7)).1.status = Status.ok ∧
      (manage_requested_artists [User.mk 7 "u" "US" true] (Release.mk 1 "" 0 [3] [7]) 3
          Method.delete (some 7)).2.requested_artists
        = m2mRemove (Release.mk 1 "" 0 [3] [7]).requested_artists 7 ∧
      7 ∉ (manage_requested_artists [User.mk 7 "u" "US" true] (Release.mk 1 "" 0 [3] [7]) 3
          Method.delete (some 7)).2.requested_artists ∧
      (manage_requested_artists [User.mk 7 "u" "US" true] (Release.mk 1 "" 0 [3] [7]) 3
          Method.delete (some 7)).2.artists = (Release.mk 1 "" 0 [3] [7]).artists) ∧
     (∀ b, b ∉ (Release.mk 1 "" 0 [3] [7]).artists →
       manage_requested_artists [User.mk 7 "u" "US" true] (Release.mk 1 "" 0 [3] [7]) b
           Method.delete (some 7)
         = (forbiddenResp, Release.mk 1 "" 0 [3] [7]))) :=
  ⟨by decide, by decide,
   manage_requested_artists_delete_policy [User.mk 7 "u" "US" true]
     (Release.mk 1 "" 0 [3] [7]) 3 7 (User.mk 7 "u" "US" true) (by decide) (by decide)⟩

/-- C5: on an existing resource with an authorized actor, both
manage_requested_artists and manage_songs reject a body without the id field
with 400 keyed to "This field is required.", reject an id that names no
stored row with 404 "Not found.", and in both failure cases leave the
relationship sets untouched (the helper is never reached). -/
theorem manage_actions_missing_field_and_unknown_id (users : List User)
    (songs : List Release) (r : Release) (pl : Playlist) (a aid sid : Nat) (m : Method)
    (ha : a ∈ r.artists)
    (haid : users.find? (fun u => u.id = aid) = none)
    (hsid : songs.find? (fun s => s.id = sid) = none) :
    manage_requested_artists users r a m none =
      ({ status := Status.badRequest,
         fieldErrors := [("artist_id", "This field is required.")] }, r) ∧
    manage_requested_artists users r a m (some aid) = (notFoundResp, r) ∧
    manage_songs songs pl m none =
      ({ status := Status.badRequest,
         fieldErrors := [("song_id", "This field is required.")] }, pl) ∧
    manage_songs songs pl m (some sid) = (notFoundResp, pl) := by
  have hperm : isArtistOrReadOnly r a true = true := by
    simp [isArtistOrReadOnly, ha]
  refine ⟨?_, ?_, ?_, ?_⟩
  · simp [manage_requested_artists, hperm]
  · simp [manage_requested_artists, hperm, haid]
  · simp [manage_songs]
  · simp [manage_songs, hsid]

/-- C5 witness: artist 3 of a one-artist release and a playlist, with user id
9 and song id 9 unknown to the store, exercised at method POST. -/
theorem manage_actions_missing_field_and_unknown_id_witness :
    3 ∈ (Release.mk 1 "" 0 [3] []).artists ∧
    ([] : List User).find? (fun u => u.id = 9) = none ∧
    ([] : List Release).find? (fun s => s.id = 9) = none ∧
    (manage_requested_artists [] (Release.mk 1 "" 0 [3] []) 3 Method.post none =
       ({ status := Status.badRequest,
          fieldErrors := [("artist_id", "This field is required.")] },
        Release.mk 1 "" 0 [3] []) ∧
     manage_requested_artists [] (Release.mk 1 "" 0 [3] []) 3 Method.post (some 9)
       = (notFoundResp, Release.mk 1 "" 0 [3] []) ∧
     manage_songs [] (Playlist.mk 1 2 "" 0 []) Method.post none =
       ({ status := Status.badRequest,
          fieldErrors := [("song_id", "This field is required.")] },
        Playlist.mk 1 2 "" 0 []) ∧
     manage_songs [] (Playlist.mk 1 2 "" 0 []) Method.post (some 9)
       = (notFoundResp, Playlist.mk 1 2 "" 0 [])) :=
  ⟨by decide, by decide, by decide,
   manage_actions_missing_field_and_unknown_id [] [] (Release.mk 1 "" 0 [3] [])
     (Playlist.mk 1 2 "" 0 []) 3 9 9 Method.post (by decide) (by decide) (by decide)⟩

theorem playlist_queryset_find?_none (db : Db) (y pk : Nat) (p : Playlist)
    (hnd : (db.playlists.map (fun q => q.id)).Nodup)
    (hp : p ∈ db.playlists) (hpk : p.id = pk) (hy : p.owner ≠ y) :
    (playlist_get_queryset db y).find? (fun q => q.id = pk) = none := by
  rw [List.find?_eq_none]
  intro q hq
  simp only [decide_eq_true_eq]
  intro hqpk
  have hqmem : q ∈ db.playlists.filter (fun w => w.owner = y) := by
    simpa [playlist_get_queryset, List.mem_insertionSort] using hq
  have hqdb : q ∈ db.playlists := (List.mem_filter.mp hqmem).1
  have hqy : q.owner = y := by
    have := (List.mem_filter.mp hqmem).2
    simpa using this
  have hpq : p ≠ q := fun h => hy (h ▸ hqy)
  have hpair : db.playlists.Pairwise (fun a b => a.id ≠ b.id) := List.pairwise_map.mp hnd
  have hsymm : Symmetric (fun a b : Playlist => a.id ≠ b.id) :=
    fun _ _ hab h => hab h.symm
  have : p.id ≠ q.id := List.Pairwise.forall hsymm hpair hp hqdb hpq
  exact this (hpk.trans hqpk.symm)

/-- C2: a playlist owned by X, addressed by its pk under unique playlist ids,
is reported to any other authenticated user Y as 404 NotFound with detail
"Not found." — never 403 Forbidden — for every detail-route verb, and the
store is untouched: the playlist is filtered out of Y's visible queryset
before authorization runs. -/
theorem playlist_hidden_from_non_owner (db : Db) (y pk : Nat) (p : Playlist)
    (payload : PlaylistPayload) (m : Method)
    (hnd : (db.playlists.map (fun q => q.id)).Nodup)
    (hp : p ∈ db.playlists) (hpk : p.id = pk) (hy : p.owner ≠ y) :
    playlist_detail db y pk m payload = (notFoundResp, db) ∧
    (playlist_detail db y pk m payload).1.status.code = 404 ∧
    (playlist_detail db y pk m payload).1.detail = some "Not found." ∧
    (playlist_detail db y pk m payload).1.status ≠ Status.forbidden := by
  have hnone := playlist_queryset_find?_none db y pk p hnd hp hpk hy
  have hmain : playlist_detail db y pk m payload = (notFoundResp, db) := by
    simp [playlist_detail, hnone]
  refine ⟨hmain, ?_, ?_, ?_⟩ <;> simp [hmain, notFoundResp, Status.code]

/-- C2 witness: playlist 5 owned by user 1, addressed by user 2 with a PATCH
carrying an owner value. -/
theorem playlist_hidden_from_non_owner_witness :
    ((Db.mk [] [] [] [Playlist.mk 5 1 "t" 0 []]).playlists.map (fun q => q.id)).Nodup ∧
    Playlist.mk 5 1 "t" 0 [] ∈ (Db.mk [] [] [] [Playlist.mk 5 1 "t" 0 []]).playlists ∧
    (Playlist.mk 5 1 "t" 0 []).id = 5 ∧
    (Playlist.mk 5 1 "t" 0 []).owner ≠ 2 ∧
    (playlist_detail (Db.mk [] [] [] [Playlist.mk 5 1 "t" 0 []]) 2 5 Method.patch
         (PlaylistPayload.mk none (some 2))
       = (notFoundResp, Db.mk [] [] [] [Playlist.mk 5 1 "t" 0 []]) ∧
     (playlist_detail (Db.mk [] [] [] [Playlist.mk 5 1 "t" 0 []]) 2 5 Method.patch
         (PlaylistPayload.mk none (some 2))).1.status.code = 404 ∧
     (playlist_detail (Db.mk [] [] [] [Playlist.mk 5 1 "t" 0 []]) 2 5 Method.patch
         (PlaylistPayload.mk none (some 2))).1.detail = some "Not found." ∧
     (playlist_detail (Db.mk [] [] [] [Playlist.mk 5 1 "t" 0 []]) 2 5 Method.patch
         (PlaylistPayload.mk none (some 2))).1.status ≠ Status.forbidden) :=
  ⟨by decide, by decide, by decide, by decide,
   playlist_hidden_from_non_owner (Db.mk [] [] [] [Playlist.mk 5 1 "t" 0 []]) 2 5
     (Playlist.mk 5 1 "t" 0 []) (PlaylistPayload.mk none (some 2)) Method.patch
     (by decide) (by decide) (by decide) (by decide)⟩

/-- C3: a playlist's owner is immutable through the public interface. Create
stores the authenticated caller as owner whatever owner the payload carried;
an owner-supplying PUT/PATCH by the owner succeeds with 200, the supplied
owner value is discarded, the stored and returned owner equal the original,
the supplied title is applied, and no playlist is added or removed. -/
theorem playlist_owner_immutable (db : Db) (actor now pk v : Nat)
    (createPayload payload : PlaylistPayload) (p : Playlist) (t : String)
    (hct : createPayload.title = some t)
    (hfind : (playlist_get_queryset db actor).find? (fun q => q.id = pk) = some p)
    (_hv : payload.owner = some v) :
    ((playlist_create db actor now createPayload).1.status = Status.created ∧
     (playlist_create db actor now createPayload).2.playlists =
       db.playlists ++
         [Playlist.mk (freshPlaylistId db) actor t now []]) ∧
    ((playlist_detail db actor pk Method.patch payload).1.status = Status.ok ∧
     (playlist_detail db actor pk Method.patch payload).1.playlist
       = some (playlist_serializer_update p payload) ∧
     (playlist_serializer_update p payload).owner = p.owner ∧
     (playlist_serializer_update p payload).title = payload.title.getD p.title ∧
     (∀ q ∈ (playlist_detail db actor pk Method.patch payload).2.playlists,
        q.id = pk → q.owner = p.owner) ∧
     (playlist_detail db actor pk Method.patch payload).2.playlists.length
       = db.playlists.length ∧
     (payload.title.isSome →
       playlist_detail db actor pk Method.put payload
         = playlist_detail db actor pk Method.patch payload)) := by
  constructor
  · constructor
    · simp [playlist_create, hct]
    · simp [playlist_create, hct]
  · refine ⟨?_, ?_, rfl, rfl, ?_, ?_, ?_⟩
    · simp [playlist_detail, hfind]
    · simp [playlist_detail, hfind]
    · intro q hq hqpk
      have hq2 : q ∈ db.playlists.map
          (fun w => if w.id = pk then playlist_serializer_update p payload else w) := by
        simpa [playlist_detail, hfind] using hq
      obtain ⟨w, _, hwq⟩ := List.mem_map.mp hq2
      by_cases hwid : w.id = pk
      · rw [if_pos hwid] at hwq
        rw [← hwq]
        rfl
      · rw [if_neg hwid] at hwq
        exact absurd (hwq ▸ hqpk) hwid
    · simp [playlist_detail, hfind]
    · intro hts
      obtain ⟨t', ht'⟩ := Option.isSome_iff_exists.mp hts
      simp [playlist_detail, hfind, ht']

/-- C3 witness: user 1 creates a playlist over a payload carrying owner 2,
and patches playlist 5 (their own) with a new title and owner 2. -/
theorem playlist_owner_immutable_witness :
    (PlaylistPayload.mk (some "mine") (some 2)).title = some "mine" ∧
    (playlist_get_queryset (Db.mk [] [] [] [Playlist.mk 5 1 "t" 3 []]) 1).find?
        (fun q => q.id = 5) = some (Playlist.mk 5 1 "t" 3 []) ∧
    (PlaylistPayload.mk (some "new") (some 2)).owner = some 2 ∧
    (((playlist_create (Db.mk [] [] [] [Playlist.mk 5 1 "t" 3 []]) 1 9
          (PlaylistPayload.mk (some "mine") (some 2))).1.status = Status.created ∧
      (playlist_create (Db.mk [] [] [] [Playlist.mk 5 1 "t" 3 []]) 1 9
          (PlaylistPayload.mk (some "mine") (some 2))).2.playlists =
        (Db.mk [] [] [] [Playlist.mk 5 1 "t" 3 []]).playlists ++
          [Playlist.mk (freshPlaylistId (Db.mk [] [] [] [Playlist.mk 5 1 "t" 3 []])) 1
             "mine" 9 []]) ∧
     ((playlist_detail (Db.mk [] [] [] [Playlist.mk 5 1 "t" 3 []]) 1 5 Method.patch
          (PlaylistPayload.mk (some "new") (some 2))).1.status = Status.ok ∧
      (playlist_detail (Db.mk [] [] [] [Playlist.mk 5 1 "t" 3 []]) 1 5 Method.patch
          (PlaylistPayload.mk (some "new") (some 2))).1.playlist
        = some (playlist_serializer_update (Playlist.mk 5 1 "t" 3 [])
            (PlaylistPayload.mk (some "new") (some 2))) ∧
      (playlist_serializer_update (Playlist.mk 5 1 "t" 3 [])
          (PlaylistPayload.mk (some "new") (some 2))).owner
        = (Playlist.mk 5 1 "t" 3 []).owner ∧
      (playlist_serializer_update (Playlist.mk 5 1 "t" 3 [])
          (PlaylistPayload.mk (some "new") (some 2))).title
        = (PlaylistPayload.mk (some "new") (some 2)).title.getD
            (Playlist.mk 5 1 "t" 3 []).title ∧
      (∀ q ∈ (playlist_detail (Db.mk [] [] [] [Playlist.mk 5 1 "t" 3 []]) 1 5 Method.patch
          (PlaylistPayload.mk (some "new") (some 2))).2.playlists,
         q.id = 5 → q.owner = (Playlist.mk 5 1 "t" 3 []).owner) ∧
      (playlist_detail (Db.mk [] [] [] [Playlist.mk 5 1 "t" 3 []]) 1 5 Method.patch
          (PlaylistPayload.mk (some "new") (some 2))).2.playlists.length
        = (Db.mk [] [] [] [Playlist.mk 5 1 "t" 3 []]).playlists.length ∧
      ((PlaylistPayload.mk (some "new") (some 2)).title.isSome →
        playlist_detail (Db.mk [] [] [] [Playlist.mk 5 1 "t" 3 []]) 1 5 Method.put
            (PlaylistPayload.mk (some "new") (some 2))
          = playlist_detail (Db.mk [] [] [] [Playlist.mk 5 1 "t" 3 []]) 1 5 Method.patch
              (PlaylistPayload.mk (some "new") (some 2))))) :=
  ⟨rfl, by decide, rfl,
   playlist_owner_immutable (Db.mk [] [] [] [Playlist.mk 5 1 "t" 3 []]) 1 9 5 2
     (PlaylistPayload.mk (some "mine") (some 2)) (PlaylistPayload.mk (some "new") (some 2))
     (Playlist.mk 5 1 "t" 3 []) "mine" rfl (by decide) rfl⟩

/-- C8: the owner's DELETE on their own user-detail endpoint returns 204 No
Content and soft-deletes: the active flag is cleared while the row persists —
the stored user count is unchanged, the target row keeps every other field,
and every other user row survives untouched. -/
theorem user_destroy_soft_delete (db : Db) (u : User)
    (h : db.users.find? (fun v => v.id = u.id) = some u) :
    (user_destroy db u.id u.id).1.status = Status.noContent ∧
    (user_destroy db u.id u.id).1.status.code = 204 ∧
    (user_destroy db u.id u.id).2.users.length = db.users.length ∧
    (user_destroy db u.id u.id).2.users.find? (fun v => v.id = u.id)
      = some (User.mk u.id u.username u.country false) ∧
    (∀ v ∈ db.users, v.id ≠ u.id → v ∈ (user_destroy db u.id u.id).2.users) := by
  have hperm : isUserOrReadOnly u u.id true = true := by
    simp [isUserOrReadOnly]
  have hmk : User.mk u.id u.username u.country false = { u with is_active := false } := rfl
  refine ⟨?_, ?_, ?_, ?_, ?_⟩
  · simp [user_destroy, h, hperm]
  · simp [user_destroy, h, hperm, Status.code]
  · simp [user_destroy, h, hperm]
  · rw [hmk]
    simp only [user_destroy, h, hperm, if_pos]
    exact user_find?_map_update u.id { u with is_active := false } rfl db.users u h
  · intro v hv hvne
    simp only [user_destroy, h, hperm, if_pos]
    refine List.mem_map.mpr ⟨v, hv, ?_⟩
    rw [if_neg hvne]

/-- C8 witness: user 2 deletes their own account in a two-user store. -/
theorem user_destroy_soft_delete_witness :
    (Db.mk [User.mk 1 "a" "US" true, User.mk 2 "b" "BG" true] [] [] []).users.find?
        (fun v => v.id = (User.mk 2 "b" "BG" true).id) = some (User.mk 2 "b" "BG" true) ∧
    ((user_destroy (Db.mk [User.mk 1 "a" "US" true, User.mk 2 "b" "BG" true] [] [] []) 2
        2).1.status = Status.noContent ∧
     (user_destroy (Db.mk [User.mk 1 "a" "US" true, User.mk 2 "b" "BG" true] [] [] []) 2
        2).1.status.code = 204 ∧
     (user_destroy (Db.mk [User.mk 1 "a" "US" true, User.mk 2 "b" "BG" true] [] [] []) 2
        2).2.users.length
       = (Db.mk [User.mk 1 "a" "US" true, User.mk 2 "b" "BG" true] [] [] []).users.length ∧
     (user_destroy (Db.mk [User.mk 1 "a" "US" true, User.mk 2 "b" "BG" true] [] [] []) 2
        2).2.users.find? (fun v => v.id = (User.mk 2 "b" "BG" true).id)
       = some (User.mk 2 "b" "BG" false) ∧
     (∀ v ∈ (Db.mk [User.mk 1 "a" "US" true, User.mk 2 "b" "BG" true] [] [] []).users,
        v.id ≠ (User.mk 2 "b" "BG" true).id →
          v ∈ (user_destroy (Db.mk [User.mk 1 "a" "US" true, User.mk 2 "b" "BG" true]
              [] [] []) 2 2).2.users)) :=
  ⟨by decide,
   user_destroy_soft_delete (Db.mk [User.mk 1 "a" "US" true, User.mk 2 "b" "BG" true]
     [] [] []) (User.mk 2 "b" "BG" true) (by decide)⟩

/-- C10: the owner's soft delete is idempotent — performed twice it returns
204 again and leaves exactly the state of performing it once. -/
theorem user_destroy_idempotent (db : Db) (u : User)
    (h : db.users.find? (fun v => v.id = u.id) = some u) :
    (user_destroy (user_destroy db u.id u.id).2 u.id u.id).1.status = Status.noContent ∧
    (user_destroy (user_destroy db u.id u.id).2 u.id u.id).2
      = (user_destroy db u.id u.id).2 := by
  have hperm : isUserOrReadOnly u u.id true = true := by
    simp [isUserOrReadOnly]
  have hperm2 : isUserOrReadOnly { u with is_active := false } u.id true = true := by
    simp [isUserOrReadOnly]
  have hfind2 : (db.users.map (fun v => if v.id = u.id then { u with is_active := false }
      else v)).find? (fun v => v.id = u.id) = some { u with is_active := false } :=
    user_find?_map_update u.id { u with is_active := false } rfl db.users u h
  have hsame : ({ u with is_active := false } : User) =
      { ({ u with is_active := false } : User) with is_active := false } := rfl
  constructor
  · simp [user_destroy, h, hperm, hfind2, hperm2]
  · simp only [user_destroy, h, hperm, if_pos, hfind2, hperm2]
    rw [← hsame]
    exact congrArg (fun l => { db with users := l })
      (user_map_update_idem u.id { u with is_active := false } rfl db.users)

/-- C10 witness: the idempotence theorem applied to a concrete one-user
store. -/
theorem user_destroy_idempotent_witness :
    (Db.mk [User.mk 3 "c" "US" true] [] [] []).users.find?
        (fun v => v.id = (User.mk 3 "c" "US" true).id) = some (User.mk 3 "c" "US" true) ∧
    ((user_destroy (user_destroy (Db.mk [User.mk 3 "c" "US" true] [] [] []) 3 3).2 3
        3).1.status = Status.noContent ∧
     (user_destroy (user_destroy (Db.mk [User.mk 3 "c" "US" true] [] [] []) 3 3).2 3 3).2
       = (user_destroy (Db.mk [User.mk 3 "c" "US" true] [] [] []) 3 3).2) :=
  ⟨by decide,
   user_destroy_idempotent (Db.mk [User.mk 3 "c" "US" true] [] [] [])
     (User.mk 3 "c" "US" true) (by decide)⟩

instance : IsTotal User fun a b => a.username ≤ b.username :=
  ⟨fun a b => le_total a.username b.username⟩

instance : IsTrans User fun a b => a.username ≤ b.username :=
  ⟨fun _ _ _ hab hbc => le_trans hab hbc⟩

instance : IsTotal Release fun a b => b.release_date ≤ a.release_date :=
  ⟨fun a b => le_total b.release_date a.release_date⟩

instance : IsTrans Release fun a b => b.release_date ≤ a.release_date :=
  ⟨fun _ _ _ hab hbc => le_trans hbc hab⟩

instance : IsTotal Playlist fun a b => b.created_at ≤ a.created_at :=
  ⟨fun a b => le_total b.created_at a.created_at⟩

instance : IsTrans Playlist fun a b => b.created_at ≤ a.created_at :=
  ⟨fun _ _ _ hab hbc => le_trans hbc hab⟩

/-- C9: every list endpoint applies its declared default ordering and search
fields — users come out sorted by username ascending and a searched user list
holds exactly the stored users matching on username or country; songs and
albums come out sorted by release date descending with search on title or an
artist's username; playlists come out sorted by creation time descending,
scoped to the owner, with search on title. -/
theorem list_endpoints_ordering_and_search (db : Db) (q : String) (actor : Nat)
    (s : Option String) :
    (users_list db s).Sorted (fun a b => a.username ≤ b.username) ∧
    (∀ u, u ∈ users_list db (some q) ↔ u ∈ db.users ∧ user_search_match q u = true) ∧
    (songs_list db s).Sorted (fun a b => b.release_date ≤ a.release_date) ∧
    (∀ r, r ∈ songs_list db (some q) ↔
      r ∈ db.songs ∧ release_search_match db.users q r = true) ∧
    (albums_list db s).Sorted (fun a b => b.release_date ≤ a.release_date) ∧
    (∀ r, r ∈ albums_list db (some q) ↔
      r ∈ db.albums ∧ release_search_match db.users q r = true) ∧
    (playlists_list db actor s).Sorted (fun a b => b.created_at ≤ a.created_at) ∧
    (∀ p, p ∈ playlists_list db actor (some q) ↔
      p ∈ db.playlists ∧ p.owner = actor ∧ playlist_search_match q p = true) := by
  refine ⟨?_, ?_, ?_, ?_, ?_, ?_, ?_, ?_⟩
  · exact List.sorted_insertionSort _ _
  · intro u
    simp [users_list, List.mem_insertionSort, List.mem_filter]
  · exact List.sorted_insertionSort _ _
  · intro r
    simp [songs_list, List.mem_insertionSort, List.mem_filter]
  · exact List.sorted_insertionSort _ _
  · intro r
    simp [albums_list, List.mem_insertionSort, List.mem_filter]
  · exact List.sorted_insertionSort _ _
  · intro p
    simp [playlists_list, List.mem_insertionSort, List.mem_filter, and_assoc]
